import Mathlib

/-!
Shallow embedding of the job-search page of the job-tracker frontend
(the `JobSearch` component): the `Job` record, the sorting and pagination
engine, the saved-jobs toggle, the search handler and the
application-submission flow, together with theorems checking the
specification's claims about them.
-/

namespace JobTracker

/-- The `Job` interface of the search page. Numeric fields are embedded as
`Int`; `posted_date` holds the timestamp in milliseconds that
`new Date(posted_date).getTime()` would produce, with `none` standing for an
absent (or empty, hence JS-falsy) date string. -/
structure Job where
  _id : String
  title : String
  company : String
  location : String
  job_type : String
  description : String
  salary_min : Option Int
  salary_max : Option Int
  url : String
  source : String
  match_score : Option Int
  posted_date : Option Int
deriving DecidableEq, Repr

/-- `b.match_score || 0`: the JS `||` falls back on `0` exactly when the
score is absent or already `0`, which agrees with `Option.getD 0`. -/
def matchScoreKey (j : Job) : Int := j.match_score.getD 0

/-- `b.salary_max || 0`. -/
def salaryKey (j : Job) : Int := j.salary_max.getD 0

/-- `new Date(b.posted_date || 0).getTime()`: an absent date string yields
`new Date(0)`, the Unix epoch, i.e. timestamp `0`. -/
def dateKey (j : Job) : Int := j.posted_date.getD 0

/-- The `sortBy` state: `'relevance' | 'salary' | 'date'`. -/
inductive SortMode where
  | relevance
  | salary
  | date
deriving DecidableEq, Repr

/-- The comparator `(a, b) => key(b) - key(a)`: JavaScript `Array.prototype.sort`
is stable and places `a` no later than `b` whenever the comparator is `≤ 0`,
i.e. whenever `key b ≤ key a`; a stable merge sort with this relation computes
exactly that descending order. -/
def descBy (key : Job → Int) (a b : Job) : Bool := decide (key b ≤ key a)

/-- `sortedJobs`: copies the array and sorts it by the comparator selected by
`sortBy` (salary mode by `salary_max || 0` descending, date mode by parsed
`posted_date` descending, relevance mode — also the `default` branch — by
`match_score || 0` descending). -/
def sortedJobs (sortBy : SortMode) (jobs : List Job) : List Job :=
  match sortBy with
  | .salary => jobs.mergeSort (descBy salaryKey)
  | .date => jobs.mergeSort (descBy dateKey)
  | .relevance => jobs.mergeSort (descBy matchScoreKey)

/-- `const itemsPerPage = 10`. -/
def itemsPerPage : Nat := 10

/-- `paginatedJobs`: `sortedJobs.slice(start, start + itemsPerPage)` with
`start = (currentPage - 1) * itemsPerPage`. -/
def paginatedJobs (sorted : List Job) (currentPage : Nat) : List Job :=
  (sorted.drop ((currentPage - 1) * itemsPerPage)).take itemsPerPage

/-- `totalPages = Math.ceil(sortedJobs.length / itemsPerPage)`; on naturals
the ceiling of `n / 10` is `(n + 10 - 1) / 10`. -/
def totalPages (sorted : List Job) : Nat :=
  (sorted.length + itemsPerPage - 1) / itemsPerPage

/-- The pages in order: `paginatedJobs` at pages `1` through `totalPages`. -/
def allPages (sorted : List Job) : List (List Job) :=
  (List.range (totalPages sorted)).map (fun i => paginatedJobs sorted (i + 1))

theorem take_add_eq_append {α : Type _} (l : List α) (m n : Nat) :
    l.take (m + n) = l.take m ++ (l.drop m).take n := by
  induction m generalizing l with
  | zero => simp
  | succ m ih =>
    cases l with
    | nil => simp
    | cons a l => simp [Nat.succ_add, ih]

theorem flatten_pages_take (l : List Job) (k : Nat) :
    ((List.range k).map (fun i => paginatedJobs l (i + 1))).flatten
      = l.take (k * itemsPerPage) := by
  induction k with
  | zero => simp
  | succ k ih =>
    rw [List.range_succ, List.map_append, List.flatten_append, ih]
    simp only [List.map_cons, List.map_nil, List.flatten_cons, List.flatten_nil,
      List.append_nil, paginatedJobs, Nat.add_sub_cancel]
    rw [Nat.succ_mul, take_add_eq_append]

/-- C1: paginating a sorted list of N jobs with page size 10 yields exactly
ceil(N/10) pages, every page holds at most 10 items, and the concatenation of
all pages in order reproduces the sorted sequence exactly. -/
theorem allPages_spec (l : List Job) :
    (allPages l).length = (l.length + itemsPerPage - 1) / itemsPerPage ∧
    (∀ p ∈ allPages l, p.length ≤ itemsPerPage) ∧
    (allPages l).flatten = l := by
  refine ⟨by simp [allPages, totalPages], ?_, ?_⟩
  · intro p hp
    simp only [allPages, List.mem_map] at hp
    obtain ⟨i, -, rfl⟩ := hp
    simp [paginatedJobs, List.length_take]
  · rw [allPages, flatten_pages_take]
    apply List.take_of_length_le
    show l.length ≤ ((l.length + 10 - 1) / 10) * 10
    omega

theorem descBy_trans (key : Job → Int) (a b c : Job) :
    descBy key a b → descBy key b c → descBy key a c := by
  simp only [descBy, decide_eq_true_eq]
  omega

theorem descBy_total (key : Job → Int) (a b : Job) :
    descBy key a b || descBy key b a := by
  simp only [descBy, Bool.or_eq_true, decide_eq_true_eq]
  omega

theorem mergeSort_descBy_pairwise (key : Job → Int) (l : List Job) :
    (l.mergeSort (descBy key)).Pairwise (fun a b => key b ≤ key a) := by
  have h := @List.sorted_mergeSort Job (descBy key)
    (descBy_trans key) (descBy_total key) l
  exact h.imp (by simp only [descBy, decide_eq_true_eq]; exact fun hab => hab)

/-- C2 (amended): relevance mode sorts descending by match score (missing
treated as 0), salary mode sorts descending by maximum salary (missing
treated as 0), and date mode sorts descending by posting date with a missing
date treated as the Unix epoch (timestamp 0); each mode permutes the input. -/
theorem sortedJobs_orders_by_mode (l : List Job) :
    ((sortedJobs .relevance l).Perm l ∧
      (sortedJobs .relevance l).Pairwise (fun a b => matchScoreKey b ≤ matchScoreKey a)) ∧
    ((sortedJobs .salary l).Perm l ∧
      (sortedJobs .salary l).Pairwise (fun a b => salaryKey b ≤ salaryKey a)) ∧
    ((sortedJobs .date l).Perm l ∧
      (sortedJobs .date l).Pairwise (fun a b => dateKey b ≤ dateKey a)) :=
  ⟨⟨List.mergeSort_perm l _, mergeSort_descBy_pairwise matchScoreKey l⟩,
   ⟨List.mergeSort_perm l _, mergeSort_descBy_pairwise salaryKey l⟩,
   ⟨List.mergeSort_perm l _, mergeSort_descBy_pairwise dateKey l⟩⟩

/-- Modelled from the spec's words, for comparison with the code's date key:
`specDateLe a b` holds when posting date `a` is at most `b` in the order
where a missing date is the earliest possible date, strictly below every
present date. -/
def specDateLe (a b : Option Int) : Bool :=
  match a, b with
  | none, _ => true
  | some _, none => false
  | some x, some y => decide (x ≤ y)

/-- A job with no posting date (every other field physically present but
immaterial to sorting). -/
def jobNoDate : Job :=
  { _id := "a", title := "", company := "", location := "", job_type := "",
    description := "", salary_min := none, salary_max := none, url := "",
    source := "", match_score := none, posted_date := none }

/-- A job posted one day before the Unix epoch: `new Date` parses
"1969-12-31" to timestamp -86400000 ms. -/
def jobPreEpoch : Job :=
  { _id := "b", title := "", company := "", location := "", job_type := "",
    description := "", salary_min := none, salary_max := none, url := "",
    source := "", match_score := none, posted_date := some (-86400000) }

/-- C2 counterexample: on the two-job list `[jobNoDate, jobPreEpoch]` the
code's date sort leaves the dateless job first (its key is the epoch, 0,
which exceeds -86400000), so the output is NOT descending in the order where
a missing date is the earliest possible date — the spec's order would place
the 1969 job first. -/
theorem sortedJobs_date_missing_not_earliest :
    ¬ (sortedJobs .date [jobNoDate, jobPreEpoch]).Pairwise
        (fun a b => specDateLe b.posted_date a.posted_date = true) := by
  have h : sortedJobs .date [jobNoDate, jobPreEpoch] = [jobNoDate, jobPreEpoch] :=
    List.mergeSort_of_sorted (by decide)
  rw [h]
  decide

/-- C7: sorting by salary is a permutation of the input result set — it
changes neither membership nor size, and every record of the output is one
of the unmodified input records. -/
theorem sortedJobs_salary_perm (l : List Job) :
    (sortedJobs .salary l).Perm l ∧
    (sortedJobs .salary l).length = l.length ∧
    (∀ j : Job, j ∈ sortedJobs .salary l ↔ j ∈ l) :=
  ⟨List.mergeSort_perm l _, List.length_mergeSort l,
   fun _ => List.mem_mergeSort⟩

/-- The previous-page button: `setCurrentPage(p => Math.max(1, p - 1))`. -/
def prevPage (p : Nat) : Nat := max 1 (p - 1)

/-- The next-page button: `setCurrentPage(p => Math.min(totalPages, p + 1))`. -/
def nextPage (tp p : Nat) : Nat := min tp (p + 1)

/-- The numbered page buttons:
`Array.from({ length: totalPages }, (_, i) => i + 1)`. -/
def pageButtons (tp : Nat) : List Nat := (List.range tp).map (fun i => i + 1)

/-- C3: the page index is 1-based, the page count is the ceiling of
total / page size, and every requested page index — previous, next, or a
numbered button — lands in `[1, totalPages]`. -/
theorem pageRequest_clamped (l : List Job) (p : Nat)
    (htp : 1 ≤ totalPages l) (hp1 : 1 ≤ p) (hp2 : p ≤ totalPages l) :
    totalPages l = (l.length + itemsPerPage - 1) / itemsPerPage ∧
    (1 ≤ prevPage p ∧ prevPage p ≤ totalPages l) ∧
    (1 ≤ nextPage (totalPages l) p ∧ nextPage (totalPages l) p ≤ totalPages l) ∧
    (∀ q ∈ pageButtons (totalPages l), 1 ≤ q ∧ q ≤ totalPages l) := by
  refine ⟨rfl, ⟨?_, ?_⟩, ⟨?_, ?_⟩, ?_⟩
  · simp only [prevPage]; omega
  · simp only [prevPage]; omega
  · simp only [nextPage]; omega
  · simp only [nextPage]; omega
  · intro q hq
    simp only [pageButtons, List.mem_map, List.mem_range] at hq
    omega

/-- Witness for C3 at a concrete input: 23 jobs give 3 pages, and page 2 is
a legal current page. -/
theorem pageRequest_clamped_witness :
    (1 ≤ totalPages (List.replicate 23 jobNoDate) ∧ 1 ≤ 2 ∧
      2 ≤ totalPages (List.replicate 23 jobNoDate)) ∧
    (totalPages (List.replicate 23 jobNoDate) =
        ((List.replicate 23 jobNoDate).length + itemsPerPage - 1) / itemsPerPage ∧
      (1 ≤ prevPage 2 ∧ prevPage 2 ≤ totalPages (List.replicate 23 jobNoDate)) ∧
      (1 ≤ nextPage (totalPages (List.replicate 23 jobNoDate)) 2 ∧
        nextPage (totalPages (List.replicate 23 jobNoDate)) 2 ≤
          totalPages (List.replicate 23 jobNoDate)) ∧
      (∀ q ∈ pageButtons (totalPages (List.replicate 23 jobNoDate)),
        1 ≤ q ∧ q ≤ totalPages (List.replicate 23 jobNoDate))) :=
  ⟨⟨by decide, by decide, by decide⟩,
   pageRequest_clamped (List.replicate 23 jobNoDate) 2
     (by decide) (by decide) (by decide)⟩

/-- JavaScript `String.prototype.trim`, embedded over the string's character
list: remove whitespace from both ends. -/
def jsTrim (s : String) : String :=
  ⟨((s.data.dropWhile Char.isWhitespace).reverse.dropWhile Char.isWhitespace).reverse⟩

/-- The component state of the search view: the `useState` hooks of
`JobSearch` (form fields, search flag, current page, sort mode, locally
saved job ids, and the apply-modal state). -/
structure ViewState where
  keywords : String
  location : String
  jobType : String
  minSalary : String
  maxSalary : String
  hasSearched : Bool
  currentPage : Nat
  sortBy : SortMode
  savedJobs : Finset String
  applyingJobId : Option String
  showApplyModal : Bool
  applyNotes : String
deriving DecidableEq

/-- What `handleSearch` does: the state updates it performs, whether it
issues the search request (`refetch`), and the inline error toast if any. -/
structure SearchOutcome where
  state : ViewState
  requestIssued : Bool
  errorToast : Option String
deriving DecidableEq

/-- `handleSearch`: `if (!keywords.trim()) { toast.error(...); return; }`
(the empty string is the JS-falsy case), then `setCurrentPage(1)`,
`setHasSearched(true)` and `refetch()`. -/
def handleSearch (s : ViewState) : SearchOutcome :=
  if jsTrim s.keywords = "" then
    { state := s, requestIssued := false,
      errorToast := some "Please enter job keywords" }
  else
    { state := { s with currentPage := 1, hasSearched := true },
      requestIssued := true, errorToast := none }

/-- C5: a search request is issued exactly when the keywords field has a
non-whitespace character; otherwise no request is sent and the inline error
message is shown. -/
theorem handleSearch_validation (s : ViewState) :
    ((handleSearch s).requestIssued = false ∧
        (handleSearch s).errorToast = some "Please enter job keywords" ↔
      jsTrim s.keywords = "") ∧
    ((handleSearch s).requestIssued = true ↔ jsTrim s.keywords ≠ "") := by
  by_cases h : jsTrim s.keywords = "" <;> simp [handleSearch, h]

/-- C9: whenever `handleSearch` issues the search request, it has reset the
current page to 1 (and marked the search as performed). -/
theorem handleSearch_resets_page (s : ViewState)
    (h : (handleSearch s).requestIssued = true) :
    (handleSearch s).state.currentPage = 1 := by
  by_cases hk : jsTrim s.keywords = "" <;> simp [handleSearch, hk] at h ⊢

/-- A concrete view state: a filled-in keywords field, the view on page 3. -/
def sampleState : ViewState :=
  { keywords := "Software Engineer", location := "", jobType := "",
    minSalary := "", maxSalary := "", hasSearched := false, currentPage := 3,
    sortBy := .relevance, savedJobs := ∅, applyingJobId := none,
    showApplyModal := false, applyNotes := "" }

/-- Witness for C9: searching "Software Engineer" from page 3 issues the
request and lands on page 1. -/
theorem handleSearch_resets_page_witness :
    (handleSearch sampleState).requestIssued = true ∧
    (handleSearch sampleState).state.currentPage = 1 :=
  ⟨by decide, handleSearch_resets_page sampleState (by decide)⟩

/-- `toggleSaveJob`: copy the saved set, delete the id when present, add it
otherwise. -/
def toggleSaveJob (saved : Finset String) (jobId : String) : Finset String :=
  if jobId ∈ saved then saved.erase jobId else insert jobId saved

/-- C4: toggling the same job identifier twice returns the saved set to its
original state — the toggle (remove if present, add otherwise) is an
involution. -/
theorem toggleSaveJob_involutive (saved : Finset String) (jobId : String) :
    toggleSaveJob (toggleSaveJob saved jobId) jobId = saved := by
  by_cases h : jobId ∈ saved
  · simp [toggleSaveJob, h, Finset.insert_erase]
  · simp [toggleSaveJob, h, Finset.erase_insert]

/-- The payload of `createApplicationMutation.mutate`:
`{ job_id, status?, notes?, tags? }`. -/
structure CreateApplicationData where
  job_id : String
  status : Option String
  notes : Option String
  tags : Option (List String)
deriving DecidableEq, Repr

/-- `handleApplySubmit`: `if (!applyingJobId) return;` guards the JS-falsy
values of `applyingJobId` — `null` and the empty string — and otherwise
issues the mutation with status `'applied'` and the typed note. The result
is the issued payload, or `none` when no request is sent. -/
def handleApplySubmit (s : ViewState) : Option CreateApplicationData :=
  match s.applyingJobId with
  | none => none
  | some jid =>
    if jid = "" then none
    else some { job_id := jid, status := some "applied",
                notes := some s.applyNotes, tags := none }

/-- C8: an application submission whose job identifier is absent (or empty)
is rejected before any network call: no create-application request is
issued. -/
theorem handleApplySubmit_rejects_empty (s : ViewState)
    (h : s.applyingJobId = none ∨ s.applyingJobId = some "") :
    handleApplySubmit s = none := by
  rcases h with h | h <;> simp [handleApplySubmit, h]

/-- Witness for C8: in `sampleState` no job is selected, and submitting
issues no request. -/
theorem handleApplySubmit_rejects_empty_witness :
    (sampleState.applyingJobId = none ∨ sampleState.applyingJobId = some "") ∧
    handleApplySubmit sampleState = none :=
  ⟨Or.inl rfl, handleApplySubmit_rejects_empty sampleState (Or.inl rfl)⟩

/-- `error.message || 'Failed to create application'`: JS `||` falls back to
the generic message when the server message is absent or empty. -/
def jsOrElse (s : Option String) (fallback : String) : String :=
  match s with
  | none => fallback
  | some m => if m = "" then fallback else m

/-- The observable effects of the mutation callbacks: the resulting view
state, whether the `['applications']` query cache was invalidated, and the
toasts shown. -/
structure MutationEffects where
  state : ViewState
  invalidatedApplicationsCache : Bool
  successToast : Option String
  errorToast : Option String
deriving DecidableEq

/-- `createApplicationMutation.onSuccess`: success toast, close the modal,
clear the note, clear the selected job, and invalidate the cached
application list. -/
def onApplySuccess (s : ViewState) : MutationEffects :=
  { state :=
      { s with
        showApplyModal := false
        applyNotes := ""
        applyingJobId := none },
    invalidatedApplicationsCache := true,
    successToast := some "Application created!",
    errorToast := none }

/-- `createApplicationMutation.onError`: show the server-provided message or
the generic fallback; the state is left untouched, so the form stays open
for retry and the cache is not invalidated. -/
def onApplyError (s : ViewState) (message : Option String) : MutationEffects :=
  { state := s,
    invalidatedApplicationsCache := false,
    successToast := none,
    errorToast := some (jsOrElse message "Failed to create application") }

/-- C6: on success the submission form is closed, the note field is cleared
and the cached application list is invalidated (with a success
notification); on failure the server-provided message (or the generic
fallback) is surfaced and the state — the open form included — is unchanged,
allowing retry. -/
theorem applyMutation_outcome (s : ViewState) (message : Option String) :
    ((onApplySuccess s).state.showApplyModal = false ∧
      (onApplySuccess s).state.applyNotes = "" ∧
      (onApplySuccess s).invalidatedApplicationsCache = true ∧
      (onApplySuccess s).successToast = some "Application created!") ∧
    ((onApplyError s message).state = s ∧
      (onApplyError s message).invalidatedApplicationsCache = false ∧
      (onApplyError s message).errorToast =
        some (jsOrElse message "Failed to create application")) :=
  ⟨⟨rfl, rfl, rfl, rfl⟩, rfl, rfl, rfl⟩

/-- The sort select's `onChange`: `setSortBy(e.target.value)` then
`setCurrentPage(1)`. -/
def handleSortChange (s : ViewState) (mode : SortMode) : ViewState :=
  { s with sortBy := mode, currentPage := 1 }

/-- C10: changing the sort mode resets the current page to 1 (while
installing the chosen mode), so a sort-mode change never leaves the view on
a page beyond the first. -/
theorem handleSortChange_resets_page (s : ViewState) (mode : SortMode) :
    (handleSortChange s mode).currentPage = 1 ∧
    (handleSortChange s mode).sortBy = mode :=
  ⟨rfl, rfl⟩

end JobTracker
